import Mathlib

/-!
Shallow embedding of `core/providers/memory/mem_local_short/mem_local_short.py`,
the short-term conversational memory provider (class `MemoryProvider`) of
xiaozhi-esp32-server.

Modelling conventions:

* Python strings are Lean `String`s; a Python value that may be `None` or a
  string is an `Option String` (`none` = Python `None`).
* The YAML file `data/.memory.yaml` is modelled as the mapping it serialises:
  `Option Store` where `none` means the file does not exist and
  `some m` means the file holds the dictionary `m` (a `role_id → content`
  association list with Python-dict first-match semantics).  `yaml.safe_load`
  and `yaml.dump` with `allow_unicode=True` round-trip string and `None`
  values exactly, so the serialisation layer is elided.
* The external collaborators that are not part of this repository fragment
  are abstracted: the LLM backend is a `respond` function bundled with the
  attributes the code reads off the handle (`model_name`, `api_key`); Python's
  `json.loads`, used only as a validity check (its parse result is discarded
  in the source), is an abstract predicate `jsonValid : String → Bool`;
  `check_model_key` is an abstract `checkKey : Option String → Option String`
  mapping a credential to a problem message or `none` (the constant label
  argument is dropped); `save_mem_local_short` is recorded in `World.remote`.
* Side effects are explicit state: `World` tracks the store file, the remote
  save calls, the LLM calls issued (`response_no_stream`, with its constant
  `max_tokens=2000, temperature=0.2` options elided), and error-level log
  lines.

Note on the source: in `save_memory` the statement
`msgStr += f"Current Time: {time_str}"` is indented with four spaces instead
of eight, dedenting it out of the method body (the module raises
`IndentationError` on import).  The embedding of `save_memory` therefore does
not append the "Current Time" line; this is the subject of one of the
theorems below.
-/

/-- One dialogue turn: an object with `role` and `content` attributes. -/
structure Msg where
  role : String
  content : String
deriving DecidableEq, Repr

/-- Abstract LLM handle: the attributes read off it by `save_memory` plus the
`response_no_stream (system_prompt) (user_content)` call. -/
structure LLM where
  model_name : Option String
  api_key : Option String
  respond : String → String → String

/-- The mapping serialised in `data/.memory.yaml`: role_id to stored content
(a content can be Python `None`, which YAML round-trips as `null`). -/
abbrev Store := List (String × Option String)

/-- Python-dict lookup `m[k]` / `k in m`: first binding for `k`, if any. -/
def dictGet : Store → String → Option (Option String)
  | [], _ => none
  | p :: rest, k => if p.1 = k then some p.2 else dictGet rest k

/-- Python-dict update `m[k] = v`: replace the binding for `k` in place, or
append it at the end when absent (dict insertion order). -/
def dictSet : Store → String → Option String → Store
  | [], k, v => [(k, v)]
  | p :: rest, k, v => if p.1 = k then (k, v) :: rest else p :: dictSet rest k v

/-- Python truthiness of an optional string (`None` and `""` are falsy). -/
def truthy : Option String → Bool
  | none => false
  | some s => s ≠ ""

/-- The `MemoryProvider` instance state used by the embedded methods. -/
structure MemoryProvider where
  role_id : String
  llm : Option LLM
  short_memory : Option String
  save_to_file : Bool

/-- The outside world touched by the provider: the memory file, the remote
save API call log, the LLM call log, and the error log. -/
structure World where
  file : Option Store
  remote : List (String × String)
  llm_calls : List (String × String)
  err_log : List String

/-- Result of a `save_memory` call: returned value, new instance state,
new world. -/
structure SaveOutcome where
  ret : Option String
  prov : MemoryProvider
  world : World

def short_term_memory_prompt : String :=
"\n# Temporal Memory Weaver\n\n## Core Mission\nMaintain an evolving compact memory graph. Preserve only user-relevant, actionable, identity / preference / long‑term contextual information from the dialogue while tracking changes over time.\n\n## Memory Principles\n### 1. Three-Dimension Scoring (apply every update)\n| Dimension        | Criterion (Guideline)                     | Weight |\n|------------------|-------------------------------------------|--------|\n| Recency          | Freshness (recent dialogue turns)         | 40%    |\n| Emotional Intensity | Strong affect / repeated emphasis (💖) | 35%    |\n| Connectivity     | Links to other retained facts             | 25%    |\n\n### 2. Dynamic Update Examples\nName change handling example:\nOriginal: \"曾用名\": [\"张三\"], \"现用名\": \"张三丰\"\nWhen detecting patterns like \"My name is X\" / \"Call me Y\":\n1. Move old name into list \"曾用名\" (former names)\n2. Append a timeline marker: \"2024-02-15 14:32: 启用张三丰\"\n3. Add an evolution note into memory cube describing the identity shift.\n\n### 3. Space Optimization\n- Compression: Use compact symbolic annotations (e.g. ✅ \"Alex[NY/Backend/🐱]\" ❌ \"Alex lives in New York, is a backend engineer and owns a cat\")\n- Pruning Trigger: If total characters ≥ 900:\n    1. Remove entries with weighted score < 60 and not referenced in last 3 turns.\n    2. Merge near-duplicate items (keep the most recent timestamp).\n\n## Output Structure\nReturn ONLY a valid JSON string (no explanations, no markdown code fences unless strictly needed). Extract info ONLY from the conversation; do NOT include fictitious examples. Keep field names EXACTLY as shown (Chinese keys retained for backward compatibility) but generate all textual content (values) in English.\n```json\n\x7b\n    \"时空档案\": \x7b\n        \"身份图谱\": \x7b\n            \"现用名\": \"\",\n            \"特征标记\": []\n        \x7d,\n        \"记忆立方\": [\n            \x7b\n                \"事件\": \"Joined a new company\",\n                \"时间戳\": \"2024-03-20\",\n                \"情感值\": 0.9,\n                \"关联项\": [\"afternoon tea\"],\n                \"保鲜期\": 30\n            \x7d\n        ]\n    \x7d,\n    \"关系网络\": \x7b\n        \"高频话题\": \x7b\"career\": 12\x7d,\n        \"暗线联系\": [\"\"]\n    \x7d,\n    \"待响应\": \x7b\n        \"紧急事项\": [\"Immediate tasks\"],\n        \"潜在关怀\": [\"Potential proactive support\"]\n    \x7d,\n    \"高光语录\": [\n        \"A directly quoted emotionally strong user moment\"\n    ]\n\x7d\n```\n\n### Additional Constraints\n1. Use English for all content values.\n2. Do NOT fabricate facts; only include what is grounded in dialogue.\n3. Keep emotional / preference / identity / plans / concerns; ignore device control, weather, trivial filler, or ephemeral system status.\n4. If no meaningful new information appears, you may return the previous memory unchanged.\n5. Total JSON (string length) should remain concise (target < 1800 Chinese characters equivalent; optimize but do not lose key facts).\n"

def short_term_memory_prompt_only_content : String :=
"\nYou are an experienced dialogue memory summarizer. Produce an updated SHORT memory (English only) following these rules:\n1. Extract only stable user-centric facts: identity, preferences, routines, goals, concerns, emotional signals.\n2. Do NOT repeat or discard prior memory unless the accumulated memory would exceed about 1800 characters; preserve earlier facts unless clearly obsolete.\n3. Exclude: device volume changes, media playback commands, weather reports, exit/stop phrases, refusal to chat, transient control interactions.\n4. Exclude ephemeral data like today's timestamp or current weather unless the user ties them to a personal plan or event.\n5. Exclude execution success/failure of device actions and meaningless filler phrases.\n6. If the latest conversation adds nothing meaningful, simply return the previous historical memory unchanged.\n7. Output ONLY the updated memory text (no JSON required in this mode), within ~1800 characters.\n8. No code, XML, or commentary—pure factual English summary.\n"

/-- Python `s.find(pat, start)` on code points: the least index `i ≥ start`
where `pat` occurs in `s`, or `none` (Python's `-1`). -/
def findFrom (s pat : List Char) (start : Nat) : Option Nat :=
  (List.range (s.length + 1)).find? (fun i => start ≤ i && pat.isPrefixOf (s.drop i))

/-- Embeds `extract_json_data`: if a ```json fence opener and a later ```
closer are found, return the slice between them; otherwise return the whole
input if it parses as JSON, else `""`.  `jsonValid` abstracts whether
`json.loads` succeeds on a string. -/
def extract_json_data (jsonValid : String → Bool) (json_code : String) : String :=
  let s := json_code.data
  match findFrom s ("```json".data) 0 with
  | none => if jsonValid json_code then json_code else ""
  | some st =>
    match findFrom s ("```".data) (st + 1) with
    | none => if jsonValid json_code then json_code else ""
    | some en => String.mk ((s.take en).drop (st + 7))

/-- Embeds `MemoryProvider.load_memory`: when the supplied summary is truthy
or persistence is not file-backed, the cache is set to the supplied value;
otherwise the store file is read and the entry for `role_id`, when present,
is loaded into the cache. -/
def load_memory (p : MemoryProvider) (w : World) (summary_memory : Option String) :
    MemoryProvider :=
  if truthy summary_memory || !p.save_to_file then
    { p with short_memory := summary_memory }
  else
    let all_memory := w.file.getD []
    match dictGet all_memory p.role_id with
    | some v => { p with short_memory := v }
    | none => p

/-- Embeds `MemoryProvider.__init__`: the cache starts at `""`,
`save_to_file` is hard-coded `true`, then `load_memory` runs.  Modelled from
the spec for the part outside this fragment: the base-class initialiser binds
the role identifier (the LLM handle is not yet bound). -/
def construct (role_id : String) (summary_memory : Option String) (w : World) :
    MemoryProvider :=
  load_memory
    { role_id := role_id, llm := none, short_memory := some "", save_to_file := true }
    w summary_memory

/-- Embeds `MemoryProvider.init_memory`: rebinds role and LLM (the base-class
part, modelled from the spec: re-initialization accepts a new role identifier
and LLM handle), sets `save_to_file`, and re-runs `load_memory`. -/
def init_memory (p : MemoryProvider) (role_id : String) (llm : Option LLM)
    (summary_memory : Option String) (save_to_file : Bool) (w : World) :
    MemoryProvider :=
  load_memory
    { p with role_id := role_id, llm := llm, save_to_file := save_to_file }
    w summary_memory

/-- Embeds `MemoryProvider.save_memory_to_file`: read the whole store file
(missing file = empty dict), set this role's entry to the cached memory,
rewrite the whole file. -/
def save_memory_to_file (p : MemoryProvider) (w : World) : World :=
  let all_memory := w.file.getD []
  { w with file := some (dictSet all_memory p.role_id p.short_memory) }

/-- One turn's contribution to the prompt: `"User: <text>\n"` or
`"Assistant: <text>\n"`, and nothing for any other role. -/
def turnLine (m : Msg) : String :=
  if m.role = "user" then "User: " ++ m.content ++ "\n"
  else if m.role = "assistant" then "Assistant: " ++ m.content ++ "\n"
  else ""

/-- The dialogue section of the prompt: the `for` loop appending one turn
line per message, in input order. -/
def buildDialogue : List Msg → String
  | [] => ""
  | m :: rest => turnLine m ++ buildDialogue rest

/-- The optional `History Memory` block appended when the cached memory is
truthy (non-`None` and non-empty). -/
def historyPart (short_memory : Option String) : String :=
  if truthy short_memory then "History Memory:\n" ++ (short_memory.getD "") else ""

/-- The user-content string `msgStr` that `save_memory` actually builds: the
dialogue lines plus the optional history block.  The source's
`msgStr += f"Current Time: {time_str}"` statement is dedented out of the
method body (IndentationError), so no current-time line is appended. -/
def buildMsgStr (msgs : List Msg) (short_memory : Option String) : String :=
  buildDialogue msgs ++ historyPart short_memory

/-- The user-content string the specification describes: as `buildMsgStr` but
with the labelled current-time line appended at the end. -/
def specMsgStr (msgs : List Msg) (short_memory : Option String) (time_str : String) :
    String :=
  buildMsgStr msgs short_memory ++ "Current Time: " ++ time_str

/-- Logging of the `check_model_key` verdict: an error line when the
credential is reported malformed, nothing otherwise. -/
def logKey (w : World) (msg : Option String) : World :=
  match msg with
  | some m => { w with err_log := w.err_log ++ [m] }
  | none => w

/-- Embeds `MemoryProvider.save_memory`.  `checkKey` abstracts
`check_model_key` (credential → problem message or `none`), `jsonValid`
abstracts `json.loads` success.  Flow: log a malformed-credential verdict;
abort returning `None` when no LLM is bound or fewer than 2 turns are given;
build the prompt; in structured mode call the LLM, extract and validate JSON,
and on success adopt it as the cache and persist the store, on failure keep
the previous state; in content-only mode call the LLM and hand the raw
response to the remote save API, leaving the cache untouched; finally return
the cached memory. -/
def save_memory (checkKey : Option String → Option String)
    (jsonValid : String → Bool) (p : MemoryProvider) (w : World)
    (msgs : List Msg) : SaveOutcome :=
  let api_key : Option String :=
    match p.llm with
    | none => none
    | some l => l.api_key
  let w1 := logKey w (checkKey api_key)
  match p.llm with
  | none =>
    { ret := none, prov := p,
      world := { w1 with err_log := w1.err_log ++ ["LLM is not set for memory provider"] } }
  | some llm =>
    if msgs.length < 2 then
      { ret := none, prov := p, world := w1 }
    else
      let msgStr := buildMsgStr msgs p.short_memory
      if p.save_to_file then
        let result := llm.respond short_term_memory_prompt msgStr
        let w2 := { w1 with
          llm_calls := w1.llm_calls ++ [(short_term_memory_prompt, msgStr)] }
        let json_str := extract_json_data jsonValid result
        if jsonValid json_str then
          let p2 := { p with short_memory := some json_str }
          { ret := p2.short_memory, prov := p2, world := save_memory_to_file p2 w2 }
        else
          { ret := p.short_memory, prov := p, world := w2 }
      else
        let result := llm.respond short_term_memory_prompt_only_content msgStr
        let w2 := { w1 with
          llm_calls := w1.llm_calls ++ [(short_term_memory_prompt_only_content, msgStr)],
          remote := w1.remote ++ [(p.role_id, result)] }
        { ret := p.short_memory, prov := p, world := w2 }

/-- Embeds `MemoryProvider.query_memory`: returns the cached memory, ignoring
the query string. -/
def query_memory (p : MemoryProvider) (query : String) : Option String :=
  p.short_memory

/-! Concrete instances used to exercise the theorems below on closed inputs. -/

/-- An LLM handle whose response is a fixed string. -/
def llmConst (r : String) : LLM :=
  { model_name := none, api_key := none, respond := fun _ _ => r }

/-- A `json.loads` abstraction that accepts every string. -/
def jvAll : String → Bool := fun _ => true

/-- A `json.loads` abstraction that rejects every string. -/
def jvNone : String → Bool := fun _ => false

/-- A `check_model_key` abstraction that finds every credential well-formed. -/
def ckNone : Option String → Option String := fun _ => none

/-- A two-turn user/assistant transcript. -/
def msgs2 : List Msg := [⟨"user", "hi"⟩, ⟨"assistant", "yo"⟩]

/-- A two-turn transcript with no `user`/`assistant` turn at all. -/
def msgsND : List Msg := [⟨"system", "a"⟩, ⟨"tool", "b"⟩]

/-- A structured-mode provider whose LLM answers with a non-JSON string. -/
def pInv : MemoryProvider :=
  { role_id := "roleA", llm := some (llmConst "not json"), short_memory := some "OLD",
    save_to_file := true }

/-- A structured-mode provider whose LLM answers with a JSON string. -/
def pVal : MemoryProvider :=
  { role_id := "roleA", llm := some (llmConst "[1]"), short_memory := some "OLD",
    save_to_file := true }

/-- A content-only-mode provider. -/
def pCon : MemoryProvider :=
  { role_id := "roleA", llm := some (llmConst "summary text"), short_memory := some "OLD",
    save_to_file := false }

/-- A world whose store file holds one entry for a different role. -/
def w0 : World :=
  { file := some [("roleB", some "keep")], remote := [], llm_calls := [], err_log := [] }

/-! Helper lemmas. -/

theorem dictGet_dictSet_self (m : Store) (k : String) (v : Option String) :
    dictGet (dictSet m k v) k = some v := by
  induction m with
  | nil => simp [dictGet, dictSet]
  | cons p rest ih =>
    by_cases h : p.1 = k
    · simp [dictGet, dictSet, h]
    · simp [dictGet, dictSet, h, ih]

theorem dictGet_dictSet_ne (m : Store) (k k' : String) (v : Option String)
    (h : k' ≠ k) : dictGet (dictSet m k v) k' = dictGet m k' := by
  induction m with
  | nil => simp [dictGet, dictSet, Ne.symm h]
  | cons p rest ih =>
    by_cases hp : p.1 = k
    · simp [dictGet, dictSet, hp, Ne.symm h]
    · by_cases hp' : p.1 = k'
      · simp [dictGet, dictSet, hp, hp', h]
      · simp [dictGet, dictSet, hp, hp', ih]

theorem logKey_file (w : World) (m : Option String) : (logKey w m).file = w.file := by
  cases m <;> rfl

theorem logKey_remote (w : World) (m : Option String) :
    (logKey w m).remote = w.remote := by
  cases m <;> rfl

theorem logKey_llm_calls (w : World) (m : Option String) :
    (logKey w m).llm_calls = w.llm_calls := by
  cases m <;> rfl

theorem str_empty_append (s : String) : "" ++ s = s := by
  cases s
  rfl

/-! Claim theorems. -/

/-- C1: in structured mode, with an LLM bound and at least 2 turns, when the
extracted LLM response does not validate as JSON, both the cached
`short_memory` and the on-disk store are unchanged by `save_memory`. -/
theorem structured_invalid_response_preserves_state
    (ck : Option String → Option String) (jv : String → Bool)
    (p : MemoryProvider) (w : World) (msgs : List Msg) (l : LLM)
    (hllm : p.llm = some l) (hstf : p.save_to_file = true)
    (hlen : 2 ≤ msgs.length)
    (hinv : jv (extract_json_data jv
      (l.respond short_term_memory_prompt (buildMsgStr msgs p.short_memory))) = false) :
    (save_memory ck jv p w msgs).prov.short_memory = p.short_memory ∧
    (save_memory ck jv p w msgs).world.file = w.file := by
  have h2 : ¬ (msgs.length < 2) := by omega
  simp [save_memory, hllm, hstf, h2, hinv, logKey_file]

/-- C1 witness: a concrete structured-mode call whose LLM response is
rejected leaves the cache and the file unchanged. -/
theorem structured_invalid_response_preserves_state_witness :
    pInv.llm = some (llmConst "not json") ∧ pInv.save_to_file = true ∧
    2 ≤ msgs2.length ∧
    jvNone (extract_json_data jvNone
      ((llmConst "not json").respond short_term_memory_prompt
        (buildMsgStr msgs2 pInv.short_memory))) = false ∧
    ((save_memory ckNone jvNone pInv w0 msgs2).prov.short_memory = pInv.short_memory ∧
     (save_memory ckNone jvNone pInv w0 msgs2).world.file = w0.file) :=
  ⟨rfl, rfl, by decide, rfl,
    structured_invalid_response_preserves_state ckNone jvNone pInv w0 msgs2
      (llmConst "not json") rfl rfl (by decide) rfl⟩

/-- C2: in structured mode, with an LLM bound and at least 2 turns, when the
extracted LLM response validates as JSON, the cache becomes that extracted
string, the on-disk document maps this role to it, and every other role's
entry is preserved. -/
theorem structured_valid_response_updates_cache_and_store
    (ck : Option String → Option String) (jv : String → Bool)
    (p : MemoryProvider) (w : World) (msgs : List Msg) (l : LLM)
    (hllm : p.llm = some l) (hstf : p.save_to_file = true)
    (hlen : 2 ≤ msgs.length)
    (hval : jv (extract_json_data jv
      (l.respond short_term_memory_prompt (buildMsgStr msgs p.short_memory))) = true) :
    (save_memory ck jv p w msgs).prov.short_memory
      = some (extract_json_data jv
          (l.respond short_term_memory_prompt (buildMsgStr msgs p.short_memory))) ∧
    dictGet (((save_memory ck jv p w msgs).world.file).getD []) p.role_id
      = some (some (extract_json_data jv
          (l.respond short_term_memory_prompt (buildMsgStr msgs p.short_memory)))) ∧
    ∀ k, k ≠ p.role_id →
      dictGet (((save_memory ck jv p w msgs).world.file).getD []) k
        = dictGet (w.file.getD []) k := by
  have h2 : ¬ (msgs.length < 2) := by omega
  refine ⟨?_, ?_, ?_⟩
  · simp [save_memory, hllm, hstf, h2, hval]
  · simp [save_memory, hllm, hstf, h2, hval, save_memory_to_file, logKey_file,
      dictGet_dictSet_self]
  · intro k hk
    simp [save_memory, hllm, hstf, h2, hval, save_memory_to_file, logKey_file,
      dictGet_dictSet_ne _ _ _ _ hk]

/-- C2 witness: a concrete structured-mode call whose LLM response is
accepted updates the cache and this role's file entry while the other
role's entry is untouched. -/
theorem structured_valid_response_updates_cache_and_store_witness :
    pVal.llm = some (llmConst "[1]") ∧ pVal.save_to_file = true ∧
    2 ≤ msgs2.length ∧
    jvAll (extract_json_data jvAll
      ((llmConst "[1]").respond short_term_memory_prompt
        (buildMsgStr msgs2 pVal.short_memory))) = true ∧
    (save_memory ckNone jvAll pVal w0 msgs2).prov.short_memory
      = some (extract_json_data jvAll
          ((llmConst "[1]").respond short_term_memory_prompt
            (buildMsgStr msgs2 pVal.short_memory))) ∧
    dictGet (((save_memory ckNone jvAll pVal w0 msgs2).world.file).getD []) pVal.role_id
      = some (some (extract_json_data jvAll
          ((llmConst "[1]").respond short_term_memory_prompt
            (buildMsgStr msgs2 pVal.short_memory)))) ∧
    dictGet (((save_memory ckNone jvAll pVal w0 msgs2).world.file).getD []) "roleB"
      = dictGet (w0.file.getD []) "roleB" := by
  have h := structured_valid_response_updates_cache_and_store ckNone jvAll pVal w0 msgs2
    (llmConst "[1]") rfl rfl (by decide) rfl
  exact ⟨rfl, rfl, by decide, rfl, h.1, h.2.1, h.2.2 "roleB" (by decide)⟩

/-- C4: with fewer than 2 turns, `save_memory` returns `None`, performs no
LLM call, and mutates neither the provider state nor the store nor the
remote API log. -/
theorem short_transcript_is_noop
    (ck : Option String → Option String) (jv : String → Bool)
    (p : MemoryProvider) (w : World) (msgs : List Msg)
    (hlen : msgs.length < 2) :
    (save_memory ck jv p w msgs).ret = none ∧
    (save_memory ck jv p w msgs).prov = p ∧
    (save_memory ck jv p w msgs).world.file = w.file ∧
    (save_memory ck jv p w msgs).world.remote = w.remote ∧
    (save_memory ck jv p w msgs).world.llm_calls = w.llm_calls := by
  cases hllm : p.llm <;>
    simp [save_memory, hllm, hlen, logKey_file, logKey_remote, logKey_llm_calls]

/-- C4 witness: a concrete empty transcript is a complete no-op. -/
theorem short_transcript_is_noop_witness :
    ([] : List Msg).length < 2 ∧
    ((save_memory ckNone jvAll pInv w0 []).ret = none ∧
     (save_memory ckNone jvAll pInv w0 []).prov = pInv ∧
     (save_memory ckNone jvAll pInv w0 []).world.file = w0.file ∧
     (save_memory ckNone jvAll pInv w0 []).world.remote = w0.remote ∧
     (save_memory ckNone jvAll pInv w0 []).world.llm_calls = w0.llm_calls) :=
  ⟨by decide, short_transcript_is_noop ckNone jvAll pInv w0 [] (by decide)⟩

/-- C5: in content-only mode, with an LLM bound and at least 2 turns, the
cache is not mutated, the raw LLM response is handed to the remote save API
keyed by this role, and the pre-existing cached value is returned. -/
theorem content_mode_never_mutates_cache
    (ck : Option String → Option String) (jv : String → Bool)
    (p : MemoryProvider) (w : World) (msgs : List Msg) (l : LLM)
    (hllm : p.llm = some l) (hstf : p.save_to_file = false)
    (hlen : 2 ≤ msgs.length) :
    (save_memory ck jv p w msgs).prov.short_memory = p.short_memory ∧
    (save_memory ck jv p w msgs).ret = p.short_memory ∧
    (save_memory ck jv p w msgs).world.remote
      = w.remote ++ [(p.role_id,
          l.respond short_term_memory_prompt_only_content
            (buildMsgStr msgs p.short_memory))] := by
  have h2 : ¬ (msgs.length < 2) := by omega
  simp [save_memory, hllm, hstf, h2, logKey_remote]

/-- C5 witness: a concrete content-only-mode call keeps the cache, returns
it, and records the raw response under this role on the remote API. -/
theorem content_mode_never_mutates_cache_witness :
    pCon.llm = some (llmConst "summary text") ∧ pCon.save_to_file = false ∧
    2 ≤ msgs2.length ∧
    ((save_memory ckNone jvAll pCon w0 msgs2).prov.short_memory = pCon.short_memory ∧
     (save_memory ckNone jvAll pCon w0 msgs2).ret = pCon.short_memory ∧
     (save_memory ckNone jvAll pCon w0 msgs2).world.remote
       = w0.remote ++ [(pCon.role_id,
           (llmConst "summary text").respond short_term_memory_prompt_only_content
             (buildMsgStr msgs2 pCon.short_memory))]) :=
  ⟨rfl, rfl, by decide,
    content_mode_never_mutates_cache ckNone jvAll pCon w0 msgs2
      (llmConst "summary text") rfl rfl (by decide)⟩

theorem buildDialogue_empty (msgs : List Msg)
    (hnd : ∀ m ∈ msgs, m.role ≠ "user" ∧ m.role ≠ "assistant") :
    buildDialogue msgs = "" := by
  induction msgs with
  | nil => rfl
  | cons a t ih =>
    have ha := hnd a (List.mem_cons_self a t)
    have ht : buildDialogue t = "" := ih (fun m hm => hnd m (List.mem_cons_of_mem a hm))
    show turnLine a ++ buildDialogue t = ""
    rw [ht]
    simp [turnLine, ha.1, ha.2]

/-- C3 (code slip): the statement appending the current-time line is
dedented out of `save_memory` in the source, so the user content sent to the
LLM is only the dialogue lines plus the history block; on a concrete
two-turn transcript the recorded LLM call carries no "Current Time" line,
and the content the specification describes differs from the one built. -/
theorem save_memory_prompt_lacks_current_time :
    (save_memory ckNone jvNone
        ⟨"r1", some (llmConst "resp"), some "", true⟩
        ⟨none, [], [], []⟩
        [⟨"user", "hi"⟩, ⟨"assistant", "hello"⟩]).world.llm_calls
      = [(short_term_memory_prompt, "User: hi\nAssistant: hello\n")] ∧
    findFrom ("User: hi\nAssistant: hello\n".data) ("Current Time: ".data) 0 = none ∧
    specMsgStr [⟨"user", "hi"⟩, ⟨"assistant", "hello"⟩] (some "") "2025-01-01 00:00:00"
      ≠ buildMsgStr [⟨"user", "hi"⟩, ⟨"assistant", "hello"⟩] (some "") :=
  ⟨rfl, by decide, by decide⟩

/-- C6: after `save_memory_to_file` persists the store, a freshly
constructed file-backed provider for the same role loads exactly the content
that was written. -/
theorem save_then_fresh_construct_roundtrip (p : MemoryProvider) (w : World) :
    (construct p.role_id none (save_memory_to_file p w)).short_memory
      = p.short_memory := by
  simp [construct, load_memory, save_memory_to_file, truthy, dictGet_dictSet_self]

/-- C7 (amended): when the supplied summary is truthy or persistence is not
file-backed, the cache is set to the supplied value (independently of the
store, as the statement holds for every world `w`); otherwise the store entry
for the role is loaded when present, and an absent entry leaves the cache
unchanged — the default empty value on construction, the previously cached
value on re-initialization. -/
theorem load_memory_behavior
    (p : MemoryProvider) (role : String) (llm : Option LLM)
    (sm : Option String) (stf : Bool) (w : World) :
    (init_memory p role llm sm stf w).short_memory
      = (if truthy sm || !stf then sm
         else match dictGet (w.file.getD []) role with
              | some v => v
              | none => p.short_memory) ∧
    (construct role sm w).short_memory
      = (if truthy sm then sm
         else match dictGet (w.file.getD []) role with
              | some v => v
              | none => some "") := by
  constructor
  · by_cases h : (truthy sm || !stf) = true
    · simp [init_memory, load_memory, h]
    · simp only [Bool.not_eq_true] at h
      cases hd : dictGet (w.file.getD []) role <;>
        simp [init_memory, load_memory, h, hd]
  · by_cases h : truthy sm = true
    · simp [construct, load_memory, h]
    · simp only [Bool.not_eq_true] at h
      cases hd : dictGet (w.file.getD []) role <;>
        simp [construct, load_memory, h, hd]

/-- C7 counterexample: re-initializing a provider whose cache holds "X" to a
role absent from the store leaves the cache at "X", not at the default empty
value the claim states. -/
theorem reinit_missing_entry_keeps_old_cache :
    (init_memory ⟨"a", none, some "X", true⟩ "b" none none true
        ⟨some [], [], [], []⟩).short_memory = some "X" ∧
    dictGet ((⟨some [], [], [], []⟩ : World).file.getD []) "b" = none ∧
    (some "X" : Option String) ≠ some "" :=
  ⟨rfl, rfl, by decide⟩

/-- C8: with an LLM bound, a malformed-credential verdict is appended to the
error log but changes nothing else: return value, provider state, store
file, remote calls and LLM calls coincide with the well-formed-credential
run. -/
theorem malformed_credential_only_logs
    (jv : String → Bool) (p : MemoryProvider) (w : World) (msgs : List Msg)
    (l : LLM) (m : String) (hllm : p.llm = some l) :
    (save_memory (fun _ => some m) jv p w msgs).ret
      = (save_memory (fun _ => none) jv p w msgs).ret ∧
    (save_memory (fun _ => some m) jv p w msgs).prov
      = (save_memory (fun _ => none) jv p w msgs).prov ∧
    (save_memory (fun _ => some m) jv p w msgs).world.file
      = (save_memory (fun _ => none) jv p w msgs).world.file ∧
    (save_memory (fun _ => some m) jv p w msgs).world.remote
      = (save_memory (fun _ => none) jv p w msgs).world.remote ∧
    (save_memory (fun _ => some m) jv p w msgs).world.llm_calls
      = (save_memory (fun _ => none) jv p w msgs).world.llm_calls ∧
    (save_memory (fun _ => some m) jv p w msgs).world.err_log
      = w.err_log ++ [m] ∧
    (save_memory (fun _ => none) jv p w msgs).world.err_log = w.err_log := by
  by_cases hlen : msgs.length < 2
  · simp [save_memory, hllm, logKey, hlen]
  · by_cases hstf : p.save_to_file
    · by_cases hv : jv (extract_json_data jv
        (l.respond short_term_memory_prompt (buildMsgStr msgs p.short_memory))) = true
      · simp [save_memory, hllm, logKey, hlen, hstf, hv, save_memory_to_file]
      · simp [save_memory, hllm, logKey, hlen, hstf, hv]
    · simp [save_memory, hllm, logKey, hlen, hstf]

/-- C8 witness: a concrete call with a malformed credential verdict logs it
and otherwise matches the well-formed run. -/
theorem malformed_credential_only_logs_witness :
    pInv.llm = some (llmConst "not json") ∧
    ((save_memory (fun _ => some "bad key") jvNone pInv w0 msgs2).ret
       = (save_memory (fun _ => none) jvNone pInv w0 msgs2).ret ∧
     (save_memory (fun _ => some "bad key") jvNone pInv w0 msgs2).prov
       = (save_memory (fun _ => none) jvNone pInv w0 msgs2).prov ∧
     (save_memory (fun _ => some "bad key") jvNone pInv w0 msgs2).world.file
       = (save_memory (fun _ => none) jvNone pInv w0 msgs2).world.file ∧
     (save_memory (fun _ => some "bad key") jvNone pInv w0 msgs2).world.remote
       = (save_memory (fun _ => none) jvNone pInv w0 msgs2).world.remote ∧
     (save_memory (fun _ => some "bad key") jvNone pInv w0 msgs2).world.llm_calls
       = (save_memory (fun _ => none) jvNone pInv w0 msgs2).world.llm_calls ∧
     (save_memory (fun _ => some "bad key") jvNone pInv w0 msgs2).world.err_log
       = w0.err_log ++ ["bad key"] ∧
     (save_memory (fun _ => none) jvNone pInv w0 msgs2).world.err_log = w0.err_log) :=
  ⟨rfl, malformed_credential_only_logs jvNone pInv w0 msgs2 (llmConst "not json")
    "bad key" rfl⟩

/-- C9: `query_memory` returns exactly the cached memory and is independent
of the query string; being a pure projection, it mutates no state. -/
theorem query_memory_returns_cache (p : MemoryProvider) (q q' : String) :
    query_memory p q = p.short_memory ∧ query_memory p q = query_memory p q' :=
  ⟨rfl, rfl⟩

/-- C10: turns that are neither `user` nor `assistant` render no prompt line,
yet they count toward the 2-turn minimum: a transcript of only such turns
still triggers exactly one LLM call whose user content is just the history
block, and in structured mode with a valid response the store is written. -/
theorem non_dialogue_turns_counted_but_unrendered
    (ck : Option String → Option String) (jv : String → Bool)
    (p : MemoryProvider) (w : World) (msgs : List Msg) (l : LLM)
    (hllm : p.llm = some l) (hlen : 2 ≤ msgs.length)
    (hnd : ∀ m ∈ msgs, m.role ≠ "user" ∧ m.role ≠ "assistant") :
    buildDialogue msgs = "" ∧
    (save_memory ck jv p w msgs).world.llm_calls
      = w.llm_calls ++ [((if p.save_to_file then short_term_memory_prompt
            else short_term_memory_prompt_only_content),
          historyPart p.short_memory)] ∧
    (p.save_to_file = true →
      jv (extract_json_data jv
        (l.respond short_term_memory_prompt (historyPart p.short_memory))) = true →
      (save_memory ck jv p w msgs).world.file
        = some (dictSet (w.file.getD []) p.role_id
            (some (extract_json_data jv
              (l.respond short_term_memory_prompt (historyPart p.short_memory)))))) := by
  have hD : buildDialogue msgs = "" := buildDialogue_empty msgs hnd
  have h2 : ¬ (msgs.length < 2) := by omega
  have hM : buildMsgStr msgs p.short_memory = historyPart p.short_memory := by
    rw [buildMsgStr, hD, str_empty_append]
  refine ⟨hD, ?_, ?_⟩
  · by_cases hv2 : jv (extract_json_data jv
        (l.respond short_term_memory_prompt (historyPart p.short_memory))) = true <;>
      cases hstf : p.save_to_file <;>
        simp [save_memory, hllm, h2, hstf, hM, hv2, save_memory_to_file,
          logKey_llm_calls]
  · intro hstf hv
    simp [save_memory, hllm, h2, hstf, hM, hv, save_memory_to_file, logKey_file]

/-- C10 witness: a concrete transcript of two non-dialogue turns triggers an
LLM call with empty dialogue content and writes the store in structured mode
with an accepting validator. -/
theorem non_dialogue_turns_counted_but_unrendered_witness :
    pVal.llm = some (llmConst "[1]") ∧ 2 ≤ msgsND.length ∧
    (∀ m ∈ msgsND, m.role ≠ "user" ∧ m.role ≠ "assistant") ∧
    (buildDialogue msgsND = "" ∧
     (save_memory ckNone jvAll pVal w0 msgsND).world.llm_calls
       = w0.llm_calls ++ [((if pVal.save_to_file then short_term_memory_prompt
             else short_term_memory_prompt_only_content),
           historyPart pVal.short_memory)] ∧
     (pVal.save_to_file = true →
       jvAll (extract_json_data jvAll
         ((llmConst "[1]").respond short_term_memory_prompt
           (historyPart pVal.short_memory))) = true →
       (save_memory ckNone jvAll pVal w0 msgsND).world.file
         = some (dictSet (w0.file.getD []) pVal.role_id
             (some (extract_json_data jvAll
               ((llmConst "[1]").respond short_term_memory_prompt
                 (historyPart pVal.short_memory))))))) :=
  ⟨rfl, by decide, by decide,
    non_dialogue_turns_counted_but_unrendered ckNone jvAll pVal w0 msgsND
      (llmConst "[1]") rfl (by decide) (by decide)⟩
